import Mathlib

/-!
Verification of the text-adventure world-state mutation engine
(`src/services/worldstate/world_state.py`).

The Python module keeps the whole world in one JSON document and mutates it
through a fixed set of tool functions.  Each tool loads the persisted
document, validates, mutates a local copy and persists it with
`save_world_state`; every early `return` of an error string happens BEFORE
`save_world_state` is reached, so on an error path the persisted document —
the one every later tool call observes via `load_world_state` — is the
unmodified input document.  The shallow embedding below therefore models a
tool as a function `WorldState → ToolResult × WorldState` whose second
component is the document as persisted after the call: the input state on
every error (or uncaught-exception) path, the mutated state on success.

Python dictionaries are embedded as association lists in insertion order
(`alookup` = key lookup, `upsert` = `d[k] = v`, which overwrites in place or
appends a new binding at the end, exactly like a Python dict).  Python
`list.remove` is `List.erase` (first occurrence), `list.append` is
`· ++ [x]`, `l[-4:]` on a longer list is `l.drop (l.length - 4)`.
Optional JSON keys whose defaults are behaviourally relevant
(`door_state.get("locked", False)`, `door_state.get('description', 'door')`)
are embedded as `Option` fields; keys the code lazily initializes to the
very value the model already carries (NPC inventories and memory buffers,
`met_npcs`) are plain fields, which collapses the lazy-init branches.

Error returns are strings `"Error: ..."` in the source; the embedding keeps
the exact message text but marks the error/success distinction with the
`ToolResult` constructors `err`/`ok` (the source discriminates by the
`"Error:"` prefix, which every error message carries and no success message
does).  `ToolResult.crash` stands for an uncaught Python `KeyError`
(possible only in `move_player` / `move_npc` / `add_to_inventory` when the
mover's recorded current location is not a registered location); a crash
propagates before any save, leaving the persisted document unchanged.
-/

namespace TAdv

/-- Lookup in a Python-dict-as-association-list: first binding wins. -/
def alookup (k : String) : List (String × α) → Option α
  | [] => none
  | (k2, v) :: rest => if k2 = k then some v else alookup k rest

/-- Python `d[k] = v`: overwrite the binding in place if the key is present,
otherwise append the new binding at the end (dict insertion order). -/
def upsert (k : String) (v : α) : List (String × α) → List (String × α)
  | [] => [(k, v)]
  | (k2, v2) :: rest =>
      if k2 = k then (k, v) :: rest else (k2, v2) :: upsert k v rest

/-- A `door_states[direction]` entry.  Both JSON keys are optional in the
source (`.get("locked", False)`, `.get('description', 'door')`). -/
structure DoorState where
  locked : Option Bool
  description : Option String
deriving DecidableEq, Repr

/-- An entry of the `items` registry. -/
structure Item where
  title : String
  description : String
  can_unlock : List String
deriving DecidableEq, Repr

/-- An entry of the `locations` registry. -/
structure Location where
  title : String
  description : String
  items : List String
  exits : List (String × String)
  door_states : List (String × DoorState)
deriving DecidableEq, Repr

/-- The `player` object. -/
structure Player where
  location : String
  inventory : List String
  met_npcs : List String
deriving DecidableEq, Repr

/-- An entry of the `npcs` registry. -/
structure Npc where
  location : String
  description : String
  inventory : List String
  recent_thoughts : List String
  recent_actions : List String
  personality : String
  backstory : String
  core_memories : List String
deriving DecidableEq, Repr

/-- The whole world document (the unit of persistence). -/
structure WorldState where
  player : Player
  locations : List (String × Location)
  items : List (String × Item)
  npcs : List (String × Npc)
deriving DecidableEq, Repr

/-- Result of one tool call.  `err` carries the full `"Error: ..."` string
returned by the source, `ok` a success message, `crash` an uncaught Python
exception (`KeyError`). -/
inductive ToolResult where
  | ok : String → ToolResult
  | err : String → ToolResult
  | crash : ToolResult
deriving DecidableEq, Repr

/-- The door-lock loop shared by `move_player` and `move_npc`:
`for direction, target in current_exits.items(): if target == location:
door_state = door_states.get(direction, {}); if door_state.get("locked",
False): return the locked error`.  Returns the door state of the first
direction whose target is the destination and whose door is locked. -/
def findLockedDoor (exits : List (String × String))
    (doorStates : List (String × DoorState)) (dest : String) :
    Option DoorState :=
  match exits with
  | [] => none
  | (dir, tgt) :: rest =>
      if tgt = dest then
        let ds := (alookup dir doorStates).getD { locked := none, description := none }
        if ds.locked.getD false then some ds
        else findLockedDoor rest doorStates dest
      else findLockedDoor rest doorStates dest

/-- `move_player` (world_state.py lines 276-308). -/
def move_player (s : WorldState) (location : String) : ToolResult × WorldState :=
  let current := s.player.location
  if (alookup location s.locations).isNone then
    (.err ("Error: Location \x27" ++ location ++ "\x27 does not exist"), s)
  else
    match alookup current s.locations with
    | none => (.crash, s)
    | some curLoc =>
        if location ∉ curLoc.exits.map Prod.snd then
          (.err ("Error: Cannot move directly from " ++ current ++ " to " ++ location), s)
        else
          match findLockedDoor curLoc.exits curLoc.door_states location with
          | some ds =>
              (.err ("Error: The " ++ ds.description.getD "door" ++ " is locked"), s)
          | none =>
              (.ok ("Player moved from " ++ current ++ " to " ++ location),
               { s with player := { s.player with location := location } })

/-- `move_npc` (world_state.py lines 312-346). -/
def move_npc (s : WorldState) (npc_id location : String) : ToolResult × WorldState :=
  match alookup npc_id s.npcs with
  | none => (.err ("Error: NPC \x27" ++ npc_id ++ "\x27 does not exist"), s)
  | some npc =>
      let current := npc.location
      if (alookup location s.locations).isNone then
        (.err ("Error: Location \x27" ++ location ++ "\x27 does not exist"), s)
      else
        match alookup current s.locations with
        | none => (.crash, s)
        | some curLoc =>
            if location ∉ curLoc.exits.map Prod.snd then
              (.err ("Error: Cannot move directly from " ++ current ++ " to " ++ location), s)
            else
              match findLockedDoor curLoc.exits curLoc.door_states location with
              | some ds =>
                  (.err ("Error: The " ++ ds.description.getD "door" ++ " is locked"), s)
              | none =>
                  (.ok ("NPC " ++ npc_id ++ " moved from " ++ current ++ " to " ++ location),
                   { s with npcs := upsert npc_id { npc with location := location } s.npcs })

/-- The destination phase of `transfer_item` (world_state.py lines 385-399):
the item has already been removed from the source in `s1`, but on an unknown
destination the function returns before `save_world_state`, so the persisted
document is the original `s` — the detached local copy is discarded. -/
def addDest (s s1 : WorldState) (item from_location to_location : String) :
    ToolResult × WorldState :=
  let okMsg := "Item \x27" ++ item ++ "\x27 transferred from " ++ from_location
                ++ " to " ++ to_location
  if to_location = "player" then
    (.ok okMsg,
     { s1 with player := { s1.player with inventory := s1.player.inventory ++ [item] } })
  else
    match alookup to_location s1.npcs with
    | some npc =>
        (.ok okMsg,
         { s1 with npcs := upsert to_location { npc with inventory := npc.inventory ++ [item] } s1.npcs })
    | none =>
        match alookup to_location s1.locations with
        | some loc =>
            (.ok okMsg,
             { s1 with locations := upsert to_location { loc with items := loc.items ++ [item] } s1.locations })
        | none =>
            (.err ("Error: Location \x27" ++ to_location ++ "\x27 does not exist"), s)

/-- `transfer_item` (world_state.py lines 350-399).  Source resolution order:
the literal `"player"`, then the NPC registry, then the location registry. -/
def transfer_item (s : WorldState) (item from_location to_location : String) :
    ToolResult × WorldState :=
  if (alookup item s.items).isNone then
    (.err ("Error: Item \x27" ++ item ++ "\x27 does not exist"), s)
  else if from_location = "player" then
    if item ∉ s.player.inventory then
      (.err ("Error: Item \x27" ++ item ++ "\x27 not in player inventory"), s)
    else
      addDest s
        { s with player := { s.player with inventory := s.player.inventory.erase item } }
        item from_location to_location
  else
    match alookup from_location s.npcs with
    | some npc =>
        if item ∉ npc.inventory then
          (.err ("Error: Item \x27" ++ item ++ "\x27 not in " ++ from_location ++ "\x27s inventory"), s)
        else
          addDest s
            { s with npcs := upsert from_location { npc with inventory := npc.inventory.erase item } s.npcs }
            item from_location to_location
    | none =>
        match alookup from_location s.locations with
        | none =>
            (.err ("Error: Location \x27" ++ from_location ++ "\x27 does not exist"), s)
        | some loc =>
            if item ∉ loc.items then
              (.err ("Error: Item \x27" ++ item ++ "\x27 not in location \x27" ++ from_location ++ "\x27"), s)
            else
              addDest s
                { s with locations := upsert from_location { loc with items := loc.items.erase item } s.locations }
                item from_location to_location

/-- `add_to_inventory` (world_state.py lines 403-425).  Looking up
`state["locations"][current_location]` is unguarded and raises `KeyError`
when the player's current location is not registered. -/
def add_to_inventory (s : WorldState) (item : String) : ToolResult × WorldState :=
  let current := s.player.location
  match alookup current s.locations with
  | none => (.crash, s)
  | some loc =>
      if item ∉ loc.items then
        (.err ("Error: Item \x27" ++ item ++ "\x27 is not available in " ++ current), s)
      else
        let r := transfer_item s item current "player"
        match r.1 with
        | .err m => (.err m, r.2)
        | _ => (.ok ("Player picked up " ++ item), r.2)

/-- `remove_from_inventory` (world_state.py lines 429-451). -/
def remove_from_inventory (s : WorldState) (item : String) : ToolResult × WorldState :=
  let current := s.player.location
  if item ∉ s.player.inventory then
    (.err ("Error: Item \x27" ++ item ++ "\x27 is not in inventory"), s)
  else
    let r := transfer_item s item "player" current
    match r.1 with
    | .err m => (.err m, r.2)
    | _ => (.ok ("Player dropped " ++ item ++ " in " ++ current), r.2)

/-- `unlock_door` (world_state.py lines 455-491). -/
def unlock_door (s : WorldState) (location direction key_item : String) :
    ToolResult × WorldState :=
  match alookup location s.locations with
  | none => (.err ("Error: Location \x27" ++ location ++ "\x27 does not exist"), s)
  | some loc =>
      if (alookup direction loc.door_states).isNone then
        (.err ("Error: No door to the " ++ direction ++ " in " ++ location), s)
      else if key_item ∉ s.player.inventory then
        (.err ("Error: Player does not have " ++ key_item), s)
      else
        match alookup key_item s.items with
        | none => (.err ("Error: Item \x27" ++ key_item ++ "\x27 does not exist"), s)
        | some key_data =>
            if (location ++ "_" ++ direction) ∉ key_data.can_unlock then
              (.err ("Error: " ++ key_item ++ " cannot unlock this door"), s)
            else
              let ds := (alookup direction loc.door_states).getD
                          { locked := none, description := none }
              let ds2 := { ds with locked := some false }
              let loc2 := { loc with door_states := upsert direction ds2 loc.door_states }
              (.ok ("Door to the " ++ direction ++ " in " ++ location
                     ++ " has been unlocked with " ++ key_item),
               { s with locations := upsert location loc2 s.locations })

/-- The list truncation `if len(l) > 4: l = l[-4:]` applied after an append
in `update_npc_memory`. -/
def truncate4 (l : List String) : List String :=
  if l.length > 4 then l.drop (l.length - 4) else l

/-- `update_npc_memory` (world_state.py lines 495-529).  A Python string is
truthy exactly when non-empty, so an empty `thought`/`action` is skipped;
`save_world_state` is reached on every non-error path, including the
no-updates one. -/
def update_npc_memory (s : WorldState) (npc_id thought action : String) :
    ToolResult × WorldState :=
  match alookup npc_id s.npcs with
  | none => (.err ("Error: NPC \x27" ++ npc_id ++ "\x27 does not exist"), s)
  | some npc =>
      let npc2 : Npc :=
        { npc with
          recent_thoughts :=
            if thought ≠ "" then truncate4 (npc.recent_thoughts ++ [thought])
            else npc.recent_thoughts
          recent_actions :=
            if action ≠ "" then truncate4 (npc.recent_actions ++ [action])
            else npc.recent_actions }
      let s2 : WorldState := { s with npcs := upsert npc_id npc2 s.npcs }
      let updates :=
        (if thought ≠ "" then ["thought: \x27" ++ thought ++ "\x27"] else [])
          ++ (if action ≠ "" then ["action: \x27" ++ action ++ "\x27"] else [])
      if updates.isEmpty then
        (.ok ("No updates provided for " ++ npc_id), s2)
      else
        (.ok ("Updated " ++ npc_id ++ " memory - " ++ String.intercalate ", " updates), s2)

/-- `configure_npc` (world_state.py lines 533-570).  `core_memories` is split
on commas, each piece stripped, empty pieces dropped; with no updates the
function returns before `save_world_state` and nothing was mutated. -/
def configure_npc (s : WorldState) (npc_id personality backstory core_memories : String) :
    ToolResult × WorldState :=
  match alookup npc_id s.npcs with
  | none => (.err ("Error: NPC \x27" ++ npc_id ++ "\x27 does not exist"), s)
  | some npc =>
      let npc3 : Npc :=
        { npc with
          personality := if personality ≠ "" then personality else npc.personality
          backstory := if backstory ≠ "" then backstory else npc.backstory
          core_memories :=
            if core_memories ≠ "" then
              ((core_memories.splitOn ",").map (fun m => m.trim)).filter (fun m => m ≠ "")
            else npc.core_memories }
      let updates :=
        (if personality ≠ "" then ["personality"] else [])
          ++ (if backstory ≠ "" then ["backstory"] else [])
          ++ (if core_memories ≠ "" then ["core memories"] else [])
      if updates.isEmpty then
        (.ok ("No configuration changes provided for " ++ npc_id), s)
      else
        (.ok ("Updated " ++ npc_id ++ ": " ++ String.intercalate ", " updates),
         { s with npcs := upsert npc_id npc3 s.npcs })

/-- `mark_npc_as_met` (world_state.py lines 574-599).  When the NPC is
already in `met_npcs` the function returns an informational message before
`save_world_state`, with nothing mutated. -/
def mark_npc_as_met (s : WorldState) (npc_id : String) : ToolResult × WorldState :=
  if (alookup npc_id s.npcs).isNone then
    (.err ("Error: NPC \x27" ++ npc_id ++ "\x27 does not exist"), s)
  else
    let met := s.player.met_npcs
    if npc_id ∈ met then
      (.ok ("Player has already met " ++ npc_id), s)
    else
      (.ok ("Player has now met " ++ npc_id),
       { s with player := { s.player with met_npcs := met ++ [npc_id] } })

/-- The `DEFAULT_WORLD_STATE` document (world_state.py lines 34-234). -/
def DEFAULT_WORLD_STATE : WorldState :=
  { player := { location := "foyer", inventory := [], met_npcs := [] }
    locations :=
      [ ("foyer",
         { title := "Old Foyer"
           description := "Dust hangs in slanted light. A scuffed doormat sits by the threshold and an umbrella stand leans beside a coat rack."
           items := ["silver_key", "umbrella_stand", "coat_rack", "side_table", "doormat"]
           exits := [("north", "study"), ("east", "library"), ("west", "kitchen")]
           door_states := [("north", { locked := some true, description := some "locked oak door" })] })
      , ("study",
         { title := "Quiet Study"
           description := "A heavy oak desk faces a curtained window; papers and a fountain pen sit neatly arranged."
           items := ["brass_compass", "fountain_pen", "letter_opener", "sealed_envelope", "blotting_paper"]
           exits := [("south", "foyer"), ("up", "attic")]
           door_states := [] })
      , ("library",
         { title := "Dusty Library"
           description := "Narrow aisles between tall shelves. A rolling step ladder rests against the stacks; a small reading table sits under a dim lamp."
           items := ["leather_journal", "glass_paperweight", "step_ladder", "reading_glasses", "index_cards", "candle_stub"]
           exits := [("west", "foyer")]
           door_states := [] })
      , ("kitchen",
         { title := "Abandoned Kitchen"
           description := "Cold stove, hanging utensils, and a faint smell of old spices. A trapdoor\x27s edges show wear near the center."
           items := ["iron_pot", "dented_kettle", "chipped_mug", "hanging_ladle"]
           exits := [("east", "foyer"), ("down", "cellar")]
           door_states := [("down", { locked := some true, description := some "heavy wooden trapdoor" })] })
      , ("attic",
         { title := "Cramped Attic"
           description := "Low beams and sloping roof. Dusty crates and a moth-eaten blanket lie near a single round window."
           items := ["golden_locket", "moth_eaten_blanket", "wooden_crate", "broken_frame"]
           exits := [("down", "study")]
           door_states := [] })
      , ("cellar",
         { title := "Stone Cellar"
           description := "Cool stone, low ceiling, and the scent of damp earth. An old wine rack leans against the wall."
           items := ["dusty_bottle", "coal_scuttle", "rusted_hook"]
           exits := [("up", "kitchen")]
           door_states := [] })
      ]
    items :=
      [ ("silver_key", { title := "Silver Key", description := "A tarnished silver key with intricate engravings", can_unlock := ["foyer_north"] })
      , ("brass_compass", { title := "Brass Compass", description := "An antique compass with a needle that spins mysteriously", can_unlock := [] })
      , ("leather_journal", { title := "Leather Journal", description := "A weathered journal filled with cryptic notes and sketches", can_unlock := [] })
      , ("glass_paperweight", { title := "Glass Paperweight", description := "A smooth, heavy glass paperweight with tiny air bubbles inside", can_unlock := [] })
      , ("iron_pot", { title := "Iron Pot", description := "A heavy cast iron pot, blackened with age", can_unlock := [] })
      , ("golden_locket", { title := "Golden Locket", description := "An ornate locket that feels warm to the touch", can_unlock := [] })
      , ("umbrella_stand", { title := "Umbrella Stand", description := "A wrought-iron stand with a faint ring of rust at its base", can_unlock := [] })
      , ("coat_rack", { title := "Coat Rack", description := "A wooden rack with a couple of empty hooks", can_unlock := [] })
      , ("side_table", { title := "Side Table", description := "A small table with a scratched surface", can_unlock := [] })
      , ("doormat", { title := "Doormat", description := "A coir mat with a faded border", can_unlock := [] })
      , ("fountain_pen", { title := "Fountain Pen", description := "A dark lacquer pen with a fine nib", can_unlock := [] })
      , ("letter_opener", { title := "Letter Opener", description := "A brass letter opener shaped like a leaf", can_unlock := [] })
      , ("sealed_envelope", { title := "Sealed Envelope", description := "A cream envelope sealed with burgundy wax", can_unlock := [] })
      , ("blotting_paper", { title := "Blotting Paper", description := "A square of gently stained blotting paper", can_unlock := [] })
      , ("step_ladder", { title := "Step Ladder", description := "A small rolling ladder for reaching high shelves", can_unlock := [] })
      , ("reading_glasses", { title := "Reading Glasses", description := "Wire-framed glasses in need of a wipe", can_unlock := [] })
      , ("index_cards", { title := "Index Cards", description := "A small stack of cards with penciled annotations", can_unlock := [] })
      , ("candle_stub", { title := "Candle Stub", description := "A short candle with drips of cooled wax", can_unlock := [] })
      , ("dented_kettle", { title := "Dented Kettle", description := "A tin kettle with a dented side", can_unlock := [] })
      , ("chipped_mug", { title := "Chipped Mug", description := "A plain white mug with a chip on the rim", can_unlock := [] })
      , ("hanging_ladle", { title := "Hanging Ladle", description := "A steel ladle with a looped handle", can_unlock := [] })
      , ("moth_eaten_blanket", { title := "Moth-Eaten Blanket", description := "A thin wool blanket with small holes", can_unlock := [] })
      , ("wooden_crate", { title := "Wooden Crate", description := "A light crate with a loose slat", can_unlock := [] })
      , ("broken_frame", { title := "Broken Frame", description := "A cracked picture frame without its glass", can_unlock := [] })
      , ("dusty_bottle", { title := "Dusty Bottle", description := "An unlabeled green bottle coated in dust", can_unlock := [] })
      , ("coal_scuttle", { title := "Coal Scuttle", description := "A small metal scuttle with a wooden handle", can_unlock := [] })
      , ("rusted_hook", { title := "Rusted Hook", description := "An old iron hook fixed to a beam", can_unlock := [] })
      ]
    npcs :=
      [ ("elena",
         { location := "library"
           description := "a woman in her thirties with dark hair loose and slightly disheveled, wearing a simple gray dress"
           inventory := []
           recent_thoughts := []
           recent_actions := []
           personality := "curious and observant, pragmatic under pressure, empathetic but guarded"
           backstory := "She has just woken up inside the manor and cannot remember who she is or how she got there."
           core_memories := [] })
      ] }

/-- Condition of the backing persistence medium at the time of a
`load_world_state` call: no file, a file whose read/deserialize raises, or
a file holding a valid snapshot. -/
inductive Medium where
  | absent : Medium
  | corrupt : String → Medium
  | present : WorldState → Medium
deriving DecidableEq, Repr

/-- `WORLD_STATE_FILE.exists()`. -/
def mediumExists : Medium → Bool
  | .absent => false
  | .corrupt _ => true
  | .present _ => true

/-- `open` + `json.load`: succeeds on a valid snapshot, raises on corrupt
contents (the error value is the exception). -/
def readParse : Medium → Except String WorldState
  | .present doc => .ok doc
  | .corrupt e => .error e
  | .absent => .error "no such file"

/-- `load_world_state` (world_state.py lines 237-249): inside `try`, an
existing file is read and parsed, a missing file makes the default be
persisted and returned; any exception is caught by the `except` clause,
which returns the default. -/
def load_world_state (m : Medium) : WorldState :=
  let attempt : Except String WorldState :=
    if mediumExists m then readParse m
    else .ok DEFAULT_WORLD_STATE
  match attempt with
  | .ok doc => doc
  | .error _ => DEFAULT_WORLD_STATE

/-- Sum of `f` over the values of an association list. -/
def sumBy (f : α → Nat) : List (String × α) → Nat
  | [] => 0
  | p :: rest => f p.2 + sumBy f rest

/-- Total number of occurrences of the id `x` across every container of the
world: the player inventory, every location's `items` and every NPC
inventory. -/
def itemCount (s : WorldState) (x : String) : Nat :=
  s.player.inventory.count x
    + sumBy (fun loc => loc.items.count x) s.locations
    + sumBy (fun npc => npc.inventory.count x) s.npcs

/-- Every registered item id occurs in exactly one container (counting
multiplicity): the exclusivity invariant of the spec. -/
abbrev Exclusive (s : WorldState) : Prop :=
  ∀ x ∈ s.items.map Prod.fst, itemCount s x = 1

/-- Every NPC's memory ring buffers hold at most 4 entries. -/
abbrev Buffers4 (s : WorldState) : Prop :=
  ∀ p ∈ s.npcs, (p.2 : Npc).recent_thoughts.length ≤ 4 ∧
    (p.2 : Npc).recent_actions.length ≤ 4

/-- Run a whole sequence of `update_npc_memory` calls, each observing the
state the previous one persisted. -/
def apply_memory_calls (s : WorldState) (calls : List (String × String × String)) :
    WorldState :=
  calls.foldl (fun st c => (update_npc_memory st c.1 c.2.1 c.2.2).2) s

/-- The `can_unlock` list of a registered key item, `[]` if unregistered
(mirrors `state["items"][key].get("can_unlock", [])`). -/
def canUnlockOf (s : WorldState) (key : String) : List String :=
  ((alookup key s.items).map Item.can_unlock).getD []

/-- A door state after `["locked"] = False` was assigned. -/
def unlockedDoor (dsOld : DoorState) : DoorState :=
  { locked := some false, description := dsOld.description }

/-- A location after one of its doors was unlocked. -/
def unlockedLoc (d : String) (loc : Location) (dsOld : DoorState) : Location :=
  { loc with door_states := upsert d (unlockedDoor dsOld) loc.door_states }

/-- The world state persisted by a successful `unlock_door s l d k` call,
given the location record and prior door state found along the way. -/
def unlockedState (s : WorldState) (l d : String) (loc : Location) (dsOld : DoorState) :
    WorldState :=
  { s with locations := upsert l (unlockedLoc d loc dsOld) s.locations }

/-- A small concrete location used to exercise the operations: one item,
one exit north to `"b"` guarded by a locked description-less door, and an
extra locked door east that no key can open. -/
def locA : Location :=
  { title := "Room A", description := "first room", items := ["gem"],
    exits := [("n", "b")],
    door_states := [("n", { locked := some true, description := none }),
                    ("e", { locked := some true, description := some "iron gate" })] }

/-- Second concrete location, reachable from `locA`. -/
def locB : Location :=
  { title := "Room B", description := "second room", items := [],
    exits := [("s", "a")], door_states := [] }

/-- Third concrete location, registered but reachable from nowhere. -/
def locC : Location :=
  { title := "Room C", description := "third room", items := [],
    exits := [], door_states := [] }

/-- A concrete NPC whose thought buffer is already full. -/
def npcZ : Npc :=
  { location := "a", description := "a quiet figure", inventory := [],
    recent_thoughts := ["t1", "t2", "t3", "t4"], recent_actions := [],
    personality := "calm", backstory := "unknown", core_memories := [] }

/-- A small concrete world used to evaluate the theorems below on closed
inputs: the player in `"a"` holding key `"k1"` (which opens the north door
of `"a"`), a gem resting in `"a"`, and the NPC `npcZ`. -/
def W1 : WorldState :=
  { player := { location := "a", inventory := ["k1"], met_npcs := [] },
    locations := [("a", locA), ("b", locB), ("c", locC)],
    items := [("k1", { title := "Key One", description := "a small key", can_unlock := ["a_n"] }),
              ("gem", { title := "Gem", description := "a shiny gem", can_unlock := [] })],
    npcs := [("z", npcZ)] }

/-- `locA` with its north door unlocked. -/
def locA2 : Location :=
  { title := "Room A", description := "first room", items := ["gem"],
    exits := [("n", "b")],
    door_states := [("n", { locked := some false, description := none }),
                    ("e", { locked := some true, description := some "iron gate" })] }

/-- `W1` after a successful `unlock_door W1 "a" "n" "k1"`. -/
def W1u : WorldState :=
  { player := { location := "a", inventory := ["k1"], met_npcs := [] },
    locations := [("a", locA2), ("b", locB), ("c", locC)],
    items := [("k1", { title := "Key One", description := "a small key", can_unlock := ["a_n"] }),
              ("gem", { title := "Gem", description := "a shiny gem", can_unlock := [] })],
    npcs := [("z", npcZ)] }

/-- A tiny world for the transfer scenario: the registered item
`"silver_key"` rests in the registered location `"foyer"`, nothing else. -/
def foyerW2 : Location :=
  { title := "Foyer", description := "entry", items := ["silver_key"],
    exits := [], door_states := [] }

/-- World around `foyerW2`. -/
def W2 : WorldState :=
  { player := { location := "foyer", inventory := [], met_npcs := [] },
    locations := [("foyer", foyerW2)],
    items := [("silver_key", { title := "Silver Key", description := "a key", can_unlock := [] })],
    npcs := [] }

theorem alookup_upsert_self (k : String) (v : α) (l : List (String × α)) :
    alookup k (upsert k v l) = some v := by
  induction l with
  | nil => simp [upsert, alookup]
  | cons p rest ih =>
      by_cases h : p.1 = k
      · simp [upsert, alookup, h]
      · simp [upsert, alookup, h, ih]

theorem alookup_upsert_ne (k k2 : String) (v : α) (l : List (String × α))
    (h : k ≠ k2) : alookup k (upsert k2 v l) = alookup k l := by
  have hk : ¬ (k2 = k) := fun e => h e.symm
  induction l with
  | nil => simp [upsert, alookup, hk]
  | cons p rest ih =>
      by_cases h2 : p.1 = k2
      · simp [upsert, alookup, h2, hk]
      · simp [upsert, alookup, h2, ih]

theorem upsert_upsert_self (k : String) (v : α) (l : List (String × α)) :
    upsert k v (upsert k v l) = upsert k v l := by
  induction l with
  | nil => simp [upsert]
  | cons p rest ih =>
      by_cases h : p.1 = k
      · simp [upsert, h]
      · simp [upsert, h, ih]

theorem sumBy_upsert_found (f : α → Nat) (l : List (String × α)) (k : String)
    (v v0 : α) (h : alookup k l = some v0) :
    sumBy f (upsert k v l) + f v0 = sumBy f l + f v := by
  induction l with
  | nil => simp [alookup] at h
  | cons p rest ih =>
      by_cases h2 : p.1 = k
      · simp [alookup, h2] at h
        simp [upsert, sumBy, h2, h]
        omega
      · simp [alookup, h2] at h
        have := ih h
        simp [upsert, sumBy, h2]
        omega

theorem sumBy_upsert_notfound (f : α → Nat) (l : List (String × α)) (k : String)
    (v : α) (h : alookup k l = none) :
    sumBy f (upsert k v l) = sumBy f l + f v := by
  induction l with
  | nil => simp [upsert, sumBy]
  | cons p rest ih =>
      by_cases h2 : p.1 = k
      · simp [alookup, h2] at h
      · simp [alookup, h2] at h
        simp [upsert, sumBy, h2, ih h]
        omega

theorem itemCount_addDest (s s1 : WorldState) (item fl tl x : String)
    (h : itemCount s1 x + (if item = x then 1 else 0) = itemCount s x) :
    itemCount (addDest s s1 item fl tl).2 x = itemCount s x := by
  unfold addDest
  split
  · by_cases hx : item = x <;>
      simp [itemCount, List.count_append, List.count_singleton, hx] at h ⊢ <;>
      omega
  · split
    next npc heq =>
      have h2 := sumBy_upsert_found (fun n => n.inventory.count x) s1.npcs tl
        { npc with inventory := npc.inventory ++ [item] } npc heq
      by_cases hx : item = x <;>
        simp [itemCount, List.count_append, List.count_singleton, hx] at h h2 ⊢ <;>
        omega
    next hnone =>
      split
      next loc heq =>
        have h2 := sumBy_upsert_found (fun l => l.items.count x) s1.locations tl
          { loc with items := loc.items ++ [item] } loc heq
        by_cases hx : item = x <;>
          simp [itemCount, List.count_append, List.count_singleton, hx] at h h2 ⊢ <;>
          omega
      next => rfl

theorem itemCount_transfer (s : WorldState) (item fl tl x : String) :
    itemCount (transfer_item s item fl tl).2 x = itemCount s x := by
  unfold transfer_item
  split
  · rfl
  · split
    · split
      · rfl
      next hmem =>
        rw [Decidable.not_not] at hmem
        apply itemCount_addDest
        by_cases hx : item = x
        · subst hx
          have h1 : 1 ≤ s.player.inventory.count item := List.one_le_count_iff.mpr hmem
          simp [itemCount, List.count_erase_self]
          omega
        · simp [itemCount, List.count_erase_of_ne (fun e => hx e.symm), hx]
    · split
      next npc heq =>
        split
        · rfl
        next hmem =>
          rw [Decidable.not_not] at hmem
          apply itemCount_addDest
          have h2 := sumBy_upsert_found (fun n => n.inventory.count x) s.npcs fl
            { npc with inventory := npc.inventory.erase item } npc heq
          by_cases hx : item = x
          · subst hx
            have h1 : 1 ≤ npc.inventory.count item := List.one_le_count_iff.mpr hmem
            simp [itemCount, List.count_erase_self] at h2 ⊢
            omega
          · simp [itemCount, List.count_erase_of_ne (fun e => hx e.symm), hx] at h2 ⊢
            omega
      next =>
        split
        next => rfl
        next loc heq =>
          split
          · rfl
          next hmem =>
            rw [Decidable.not_not] at hmem
            apply itemCount_addDest
            have h2 := sumBy_upsert_found (fun l => l.items.count x) s.locations fl
              { loc with items := loc.items.erase item } loc heq
            by_cases hx : item = x
            · subst hx
              have h1 : 1 ≤ loc.items.count item := List.one_le_count_iff.mpr hmem
              simp [itemCount, List.count_erase_self] at h2 ⊢
              omega
            · simp [itemCount, List.count_erase_of_ne (fun e => hx e.symm), hx] at h2 ⊢
              omega

theorem sumBy_npcInv_upsert (npcs : List (String × Npc)) (n : String) (npc : Npc)
    (x : String) (heq : alookup n npcs = some npc) (loc2 desc2 : String)
    (rt ra : List String) (pers2 back2 : String) (cm2 : List String) :
    sumBy (fun n2 => n2.inventory.count x)
      (upsert n
        { location := loc2, description := desc2, inventory := npc.inventory,
          recent_thoughts := rt, recent_actions := ra, personality := pers2,
          backstory := back2, core_memories := cm2 } npcs)
      = sumBy (fun n2 => n2.inventory.count x) npcs := by
  have h2 := sumBy_upsert_found (fun n2 => n2.inventory.count x) npcs n
    { location := loc2, description := desc2, inventory := npc.inventory,
      recent_thoughts := rt, recent_actions := ra, personality := pers2,
      backstory := back2, core_memories := cm2 } npc heq
  simp at h2
  omega

theorem sumBy_locItems_upsert (locs : List (String × Location)) (l : String)
    (loc : Location) (x : String) (heq : alookup l locs = some loc)
    (t2 d2 : String) (ex2 : List (String × String)) (dss2 : List (String × DoorState)) :
    sumBy (fun l2 => l2.items.count x)
      (upsert l
        { title := t2, description := d2, items := loc.items, exits := ex2,
          door_states := dss2 } locs)
      = sumBy (fun l2 => l2.items.count x) locs := by
  have h2 := sumBy_upsert_found (fun l2 => l2.items.count x) locs l
    { title := t2, description := d2, items := loc.items, exits := ex2,
      door_states := dss2 } loc heq
  simp at h2
  omega

theorem itemCount_move_player (s : WorldState) (t x : String) :
    itemCount (move_player s t).2 x = itemCount s x := by
  unfold move_player
  dsimp only
  split
  · rfl
  · split
    · rfl
    · split
      · rfl
      · split
        · rfl
        · simp [itemCount]

theorem itemCount_move_npc (s : WorldState) (n t x : String) :
    itemCount (move_npc s n t).2 x = itemCount s x := by
  unfold move_npc
  split
  · rfl
  next npc heq =>
    dsimp only
    split
    · rfl
    · split
      · rfl
      · split
        · rfl
        · split
          · rfl
          · simp only [itemCount]
            rw [sumBy_npcInv_upsert s.npcs n npc x heq]

theorem itemCount_add_to_inventory (s : WorldState) (i x : String) :
    itemCount (add_to_inventory s i).2 x = itemCount s x := by
  unfold add_to_inventory
  dsimp only
  split
  · rfl
  · split
    · rfl
    · split <;> exact itemCount_transfer s i s.player.location "player" x

theorem itemCount_remove_from_inventory (s : WorldState) (i x : String) :
    itemCount (remove_from_inventory s i).2 x = itemCount s x := by
  unfold remove_from_inventory
  dsimp only
  split
  · rfl
  · split <;> exact itemCount_transfer s i "player" s.player.location x

theorem itemCount_unlock_door (s : WorldState) (l d k x : String) :
    itemCount (unlock_door s l d k).2 x = itemCount s x := by
  unfold unlock_door
  split
  · rfl
  next loc heq =>
    dsimp only
    split
    · rfl
    · split
      · rfl
      · split
        · rfl
        next key_data heq2 =>
          split
          · rfl
          · simp only [itemCount]
            rw [sumBy_locItems_upsert s.locations l loc x heq]

theorem snd_ite_pair {c : Prop} [Decidable c] (a b : α) (y : β) :
    (if c then (a, y) else (b, y)).2 = y := by
  split <;> rfl

theorem itemCount_update_npc_memory (s : WorldState) (n t a x : String) :
    itemCount (update_npc_memory s n t a).2 x = itemCount s x := by
  unfold update_npc_memory
  split
  · rfl
  next npc heq =>
    dsimp only
    rw [snd_ite_pair]
    simp only [itemCount]
    rw [sumBy_npcInv_upsert s.npcs n npc x heq]

theorem itemCount_configure_npc (s : WorldState) (n p b c x : String) :
    itemCount (configure_npc s n p b c).2 x = itemCount s x := by
  unfold configure_npc
  split
  · rfl
  next npc heq =>
    dsimp only
    by_cases hp : p ≠ "" <;> by_cases hb : b ≠ "" <;> by_cases hc : c ≠ "" <;>
      simp [hp, hb, hc] <;>
      first
        | rfl
        | (simp only [itemCount]
           rw [sumBy_npcInv_upsert s.npcs n npc x heq])

theorem itemCount_mark_npc_as_met (s : WorldState) (n x : String) :
    itemCount (mark_npc_as_met s n).2 x = itemCount s x := by
  unfold mark_npc_as_met
  dsimp only
  split
  · rfl
  · split
    · rfl
    · simp [itemCount]

theorem itemsReg_addDest (s s1 : WorldState) (item fl tl : String)
    (h : s1.items = s.items) : (addDest s s1 item fl tl).2.items = s.items := by
  unfold addDest
  split
  · exact h
  · split
    · exact h
    · split
      · exact h
      · rfl

theorem itemsReg_transfer (s : WorldState) (item fl tl : String) :
    (transfer_item s item fl tl).2.items = s.items := by
  unfold transfer_item
  split
  · rfl
  · split
    · split
      · rfl
      · exact itemsReg_addDest _ _ _ _ _ rfl
    · split
      · split
        · rfl
        · exact itemsReg_addDest _ _ _ _ _ rfl
      · split
        · rfl
        · split
          · rfl
          · exact itemsReg_addDest _ _ _ _ _ rfl

theorem itemsReg_move_player (s : WorldState) (t : String) :
    (move_player s t).2.items = s.items := by
  unfold move_player
  dsimp only
  split
  · rfl
  · split
    · rfl
    · split
      · rfl
      · split <;> rfl

theorem itemsReg_move_npc (s : WorldState) (n t : String) :
    (move_npc s n t).2.items = s.items := by
  unfold move_npc
  dsimp only
  split
  · rfl
  · split
    · rfl
    · split
      · rfl
      · split
        · rfl
        · split <;> rfl

theorem itemsReg_add_to_inventory (s : WorldState) (i : String) :
    (add_to_inventory s i).2.items = s.items := by
  unfold add_to_inventory
  dsimp only
  split
  · rfl
  · split
    · rfl
    · split <;> exact itemsReg_transfer s i s.player.location "player"

theorem itemsReg_remove_from_inventory (s : WorldState) (i : String) :
    (remove_from_inventory s i).2.items = s.items := by
  unfold remove_from_inventory
  dsimp only
  split
  · rfl
  · split <;> exact itemsReg_transfer s i "player" s.player.location

theorem itemsReg_unlock_door (s : WorldState) (l d k : String) :
    (unlock_door s l d k).2.items = s.items := by
  unfold unlock_door
  dsimp only
  split
  · rfl
  · split
    · rfl
    · split
      · rfl
      · split
        · rfl
        · split <;> rfl

theorem itemsReg_update_npc_memory (s : WorldState) (n t a : String) :
    (update_npc_memory s n t a).2.items = s.items := by
  unfold update_npc_memory
  split
  · rfl
  · dsimp only
    rw [snd_ite_pair]

theorem itemsReg_configure_npc (s : WorldState) (n p b c : String) :
    (configure_npc s n p b c).2.items = s.items := by
  unfold configure_npc
  split
  · rfl
  next npc heq =>
    dsimp only
    by_cases hp : p ≠ "" <;> by_cases hb : b ≠ "" <;> by_cases hc : c ≠ "" <;>
      simp [hp, hb, hc]

theorem itemsReg_mark_npc_as_met (s : WorldState) (n : String) :
    (mark_npc_as_met s n).2.items = s.items := by
  unfold mark_npc_as_met
  dsimp only
  split
  · rfl
  · split <;> rfl

theorem mem_upsert (p : String × α) (k : String) (v : α) (l : List (String × α))
    (h : p ∈ upsert k v l) : p = (k, v) ∨ p ∈ l := by
  induction l with
  | nil => simpa [upsert] using h
  | cons q rest ih =>
      by_cases h2 : q.1 = k
      · simp [upsert, h2] at h
        rcases h with h | h
        · exact Or.inl (by simp [h])
        · exact Or.inr (List.mem_cons_of_mem q h)
      · simp [upsert, h2] at h
        rcases h with h | h
        · exact Or.inr (by simp [h])
        · rcases ih h with h3 | h3
          · exact Or.inl h3
          · exact Or.inr (List.mem_cons_of_mem q h3)

theorem alookup_mem (k : String) (v : α) (l : List (String × α))
    (h : alookup k l = some v) : (k, v) ∈ l := by
  induction l with
  | nil => simp [alookup] at h
  | cons q rest ih =>
      obtain ⟨qk, qv⟩ := q
      by_cases h2 : qk = k
      · subst h2
        simp [alookup] at h
        subst h
        exact List.mem_cons_self _ _
      · simp [alookup, h2] at h
        exact List.mem_cons_of_mem _ (ih h)

theorem truncate4_length (l : List String) : (truncate4 l).length = min 4 l.length := by
  unfold truncate4
  split <;> simp <;> omega

theorem buffers4_update (s : WorldState) (n t a : String) (h : Buffers4 s) :
    Buffers4 (update_npc_memory s n t a).2 := by
  unfold update_npc_memory
  split
  · exact h
  next npc heq =>
    dsimp only
    rw [snd_ite_pair]
    intro p hp
    rcases mem_upsert p n _ s.npcs hp with h2 | h2
    · have hn := h (n, npc) (alookup_mem n npc s.npcs heq)
      subst h2
      constructor
      · dsimp only
        split
        · rw [truncate4_length]; omega
        · exact hn.1
      · dsimp only
        split
        · rw [truncate4_length]; omega
        · exact hn.2
    · exact h p h2

theorem buffers4_apply (s : WorldState) (calls : List (String × String × String))
    (h : Buffers4 s) : Buffers4 (apply_memory_calls s calls) := by
  induction calls generalizing s with
  | nil => exact h
  | cons cl rest ih => exact ih _ (buffers4_update s cl.1 cl.2.1 cl.2.2 h)

/-- C3: in a world where every registered item id occurs in exactly one
container (a location's items, the player's inventory or an NPC's
inventory, counted with multiplicity), every operation of the tool set
preserves that exclusivity: afterwards each registered item id still
occurs in exactly one container — never zero, never duplicated. -/
theorem c3_item_exclusivity (s : WorldState) (h : Exclusive s) :
    (∀ t, Exclusive (move_player s t).2) ∧
    (∀ n t, Exclusive (move_npc s n t).2) ∧
    (∀ i fl tl, Exclusive (transfer_item s i fl tl).2) ∧
    (∀ i, Exclusive (add_to_inventory s i).2) ∧
    (∀ i, Exclusive (remove_from_inventory s i).2) ∧
    (∀ l d k, Exclusive (unlock_door s l d k).2) ∧
    (∀ n t a, Exclusive (update_npc_memory s n t a).2) ∧
    (∀ n p b c, Exclusive (configure_npc s n p b c).2) ∧
    (∀ n, Exclusive (mark_npc_as_met s n).2) := by
  refine ⟨fun t x hx => ?_, fun n t x hx => ?_, fun i fl tl x hx => ?_,
    fun i x hx => ?_, fun i x hx => ?_, fun l d k x hx => ?_,
    fun n t a x hx => ?_, fun n p b c x hx => ?_, fun n x hx => ?_⟩
  · rw [itemsReg_move_player] at hx
    rw [itemCount_move_player]
    exact h x hx
  · rw [itemsReg_move_npc] at hx
    rw [itemCount_move_npc]
    exact h x hx
  · rw [itemsReg_transfer] at hx
    rw [itemCount_transfer]
    exact h x hx
  · rw [itemsReg_add_to_inventory] at hx
    rw [itemCount_add_to_inventory]
    exact h x hx
  · rw [itemsReg_remove_from_inventory] at hx
    rw [itemCount_remove_from_inventory]
    exact h x hx
  · rw [itemsReg_unlock_door] at hx
    rw [itemCount_unlock_door]
    exact h x hx
  · rw [itemsReg_update_npc_memory] at hx
    rw [itemCount_update_npc_memory]
    exact h x hx
  · rw [itemsReg_configure_npc] at hx
    rw [itemCount_configure_npc]
    exact h x hx
  · rw [itemsReg_mark_npc_as_met] at hx
    rw [itemCount_mark_npc_as_met]
    exact h x hx

theorem truncate4_full (l : List String) (t : String) (h : l.length = 4) :
    truncate4 (l ++ [t]) = l.tail ++ [t] := by
  unfold truncate4
  have h2 : (l ++ [t]).length = 5 := by simp [h]
  rw [h2]
  simp only [if_pos (by omega : 5 > 4)]
  have h3 : (5 : Nat) - 4 = 1 := by omega
  rw [h3, List.drop_append_of_le_length (by omega), List.drop_one]

/-- C4: starting from any world whose NPC memory ring buffers
(`recent_thoughts`, `recent_actions`) hold at most 4 entries, any sequence
of `update_npc_memory` calls leaves every buffer at length at most 4; and
when a buffer is already full (length exactly 4), a non-empty new entry
evicts the oldest element: the buffer becomes its tail followed by the new
entry, i.e. the most recent 4 entries are kept. -/
theorem c4_ring_buffers (s : WorldState) (h : Buffers4 s) :
    (∀ calls, Buffers4 (apply_memory_calls s calls)) ∧
    (∀ n t a npc, alookup n s.npcs = some npc → t ≠ "" →
       npc.recent_thoughts.length = 4 →
       ∃ npc2, alookup n (update_npc_memory s n t a).2.npcs = some npc2 ∧
         npc2.recent_thoughts = npc.recent_thoughts.tail ++ [t]) ∧
    (∀ n t a npc, alookup n s.npcs = some npc → a ≠ "" →
       npc.recent_actions.length = 4 →
       ∃ npc2, alookup n (update_npc_memory s n t a).2.npcs = some npc2 ∧
         npc2.recent_actions = npc.recent_actions.tail ++ [a]) := by
  refine ⟨fun calls => buffers4_apply s calls h, ?_, ?_⟩
  · intro n t a npc heq ht hfull
    unfold update_npc_memory
    rw [heq]
    dsimp only
    rw [snd_ite_pair]
    refine ⟨_, alookup_upsert_self n _ s.npcs, ?_⟩
    dsimp only
    rw [if_pos ht]
    exact truncate4_full npc.recent_thoughts t hfull
  · intro n t a npc heq ha hfull
    unfold update_npc_memory
    rw [heq]
    dsimp only
    rw [snd_ite_pair]
    refine ⟨_, alookup_upsert_self n _ s.npcs, ?_⟩
    dsimp only
    rw [if_pos ha]
    exact truncate4_full npc.recent_actions a hfull

/-- C7: `mark_npc_as_met` is idempotent for every registered NPC id:
after one call, a second call with the same id leaves the persisted world
state (and hence `met_npcs`) exactly as it was after the first call, and
returns the informational non-error message `"Player has already met ..."`
(an `ok` result, not an `err`). -/
theorem c7_mark_idempotent (s : WorldState) (n : String)
    (h : (alookup n s.npcs).isSome = true) :
    (mark_npc_as_met (mark_npc_as_met s n).2 n).2 = (mark_npc_as_met s n).2 ∧
    (mark_npc_as_met (mark_npc_as_met s n).2 n).1
      = ToolResult.ok ("Player has already met " ++ n) := by
  obtain ⟨npc, heq⟩ := Option.isSome_iff_exists.mp h
  by_cases hm : n ∈ s.player.met_npcs
  · have h1 : mark_npc_as_met s n = (.ok ("Player has already met " ++ n), s) := by
      unfold mark_npc_as_met
      rw [heq]
      simp [hm]
    rw [h1]
    exact ⟨by rw [h1], by rw [h1]⟩
  · have h1 : mark_npc_as_met s n =
        (.ok ("Player has now met " ++ n),
         { s with player := { s.player with met_npcs := s.player.met_npcs ++ [n] } }) := by
      unfold mark_npc_as_met
      rw [heq]
      simp [hm]
    have h2 : mark_npc_as_met
        { s with player := { s.player with met_npcs := s.player.met_npcs ++ [n] } } n =
        (.ok ("Player has already met " ++ n),
         { s with player := { s.player with met_npcs := s.player.met_npcs ++ [n] } }) := by
      unfold mark_npc_as_met
      dsimp only
      rw [heq]
      simp
    rw [h1]
    exact ⟨by rw [h2], by rw [h2]⟩

/-- C9: the world-store load is fail-soft and never raises: a missing
backing file and a corrupt (unreadable or undeserializable) backing file
are resolved identically, both returning the built-in default document,
while a valid snapshot is returned as stored.  In the embedding the three
medium conditions exhaust the possible states of the persistence medium,
so `load_world_state` is total: it always returns a document. -/
theorem c9_load_fail_soft (e : String) (doc : WorldState) :
    load_world_state Medium.absent = DEFAULT_WORLD_STATE ∧
    load_world_state (Medium.corrupt e) = DEFAULT_WORLD_STATE ∧
    load_world_state (Medium.corrupt e) = load_world_state Medium.absent ∧
    load_world_state (Medium.present doc) = doc :=
  ⟨rfl, rfl, rfl, rfl⟩

/-- C1: from any world in which the registered item `"silver_key"` lies in
the items of the location `"foyer"` (and `"foyer"` is not shadowed by an
NPC of the same id), transferring it to `"nonexistent_room"` — an id that
is neither a registered location, nor an NPC, nor the literal `"player"` —
returns the destination-not-found error and leaves the persisted world
state unchanged, in particular with the key still in `"foyer"`: the
removal is never persisted because the function returns before
`save_world_state`. -/
theorem c1_transfer_dest_not_found (s : WorldState) (loc : Location)
    (hfoyer : alookup "foyer" s.locations = some loc)
    (hkey : "silver_key" ∈ loc.items)
    (hitem : (alookup "silver_key" s.items).isSome = true)
    (hnpc : alookup "foyer" s.npcs = none)
    (hdl : alookup "nonexistent_room" s.locations = none)
    (hdn : alookup "nonexistent_room" s.npcs = none) :
    transfer_item s "silver_key" "foyer" "nonexistent_room" =
      (ToolResult.err "Error: Location \x27nonexistent_room\x27 does not exist", s) ∧
    alookup "foyer" (transfer_item s "silver_key" "foyer" "nonexistent_room").2.locations
      = some loc ∧
    "silver_key" ∈ loc.items := by
  have hmain : transfer_item s "silver_key" "foyer" "nonexistent_room" =
      (ToolResult.err "Error: Location \x27nonexistent_room\x27 does not exist", s) := by
    unfold transfer_item
    rw [if_neg (by simp [Option.isNone_eq_false_iff, Option.isSome_iff_ne_none.mp hitem])]
    rw [if_neg (by decide : ¬ ("foyer" = "player"))]
    rw [hnpc]
    dsimp only
    rw [hfoyer]
    dsimp only
    rw [if_neg (by simp [hkey])]
    unfold addDest
    rw [if_neg (by decide : ¬ ("nonexistent_room" = "player"))]
    dsimp only
    rw [hdn]
    dsimp only
    rw [alookup_upsert_ne "nonexistent_room" "foyer" _ s.locations (by decide), hdl]
    rfl
  refine ⟨hmain, ?_, hkey⟩
  rw [hmain]
  exact hfoyer

/-- C2 counterexample: in the default world the player stands in
`"foyer"`, and `"nonexistent"` is not a value of any exit of `"foyer"`
(third conjunct), so the claim predicts the no-such-exit
`InvalidTransition` error; the code instead returns the
location-does-not-exist error, because the registry check precedes the
exit check. -/
theorem c2_counterexample :
    (move_player DEFAULT_WORLD_STATE "nonexistent").1
      = ToolResult.err "Error: Location \x27nonexistent\x27 does not exist" ∧
    (move_player DEFAULT_WORLD_STATE "nonexistent").1
      ≠ ToolResult.err ("Error: Cannot move directly from "
          ++ DEFAULT_WORLD_STATE.player.location ++ " to " ++ "nonexistent") ∧
    ((alookup DEFAULT_WORLD_STATE.player.location DEFAULT_WORLD_STATE.locations).map
        (fun loc => decide ("nonexistent" ∈ loc.exits.map Prod.snd))).getD true
      = false := by
  refine ⟨by decide, by decide, by decide⟩

/-- C2 amended: a move to a target that is not a value of the current
location's exits always fails, but the error kind depends on the target:
a registered target yields the no-such-exit (`InvalidTransition`) error,
an unregistered target yields the location-not-found error instead.  In
both cases the persisted state is unchanged. -/
theorem c2_move_unreachable_fails (s : WorldState) (target : String) (curLoc : Location)
    (hcur : alookup s.player.location s.locations = some curLoc)
    (hnoexit : target ∉ curLoc.exits.map Prod.snd) :
    ((alookup target s.locations).isSome = true →
       move_player s target =
         (ToolResult.err ("Error: Cannot move directly from "
            ++ s.player.location ++ " to " ++ target), s)) ∧
    ((alookup target s.locations).isSome = false →
       move_player s target =
         (ToolResult.err ("Error: Location \x27" ++ target ++ "\x27 does not exist"), s)) := by
  constructor
  · intro hreg
    unfold move_player
    rw [if_neg (by simp [Option.isNone_eq_false_iff, Option.isSome_iff_ne_none.mp hreg])]
    dsimp only
    rw [hcur]
    dsimp only
    rw [if_pos hnoexit]
  · intro hunreg
    unfold move_player
    rw [if_pos (by simp_all [Option.isNone_iff_eq_none, Option.isSome_iff_ne_none])]

/-- C5 amended: when the door id `location ++ "_" ++ direction` is not in
the key's `can_unlock` (taken as `[]` for an unregistered key),
`unlock_door` always fails and returns the world state unchanged — so
`door_states` are never mutated; the specific error is the
key-cannot-unlock one exactly when the earlier checks (location
registered, door present, key held, key registered) all pass, and
otherwise is the error of the first failing earlier check. -/
theorem c5_key_mismatch_never_unlocks (s : WorldState) (l d k : String)
    (h : (l ++ "_" ++ d) ∉ canUnlockOf s k) :
    (∃ msg, unlock_door s l d k = (ToolResult.err msg, s)) ∧
    (∀ loc, alookup l s.locations = some loc →
       (alookup d loc.door_states).isSome = true →
       k ∈ s.player.inventory →
       (alookup k s.items).isSome = true →
       unlock_door s l d k
         = (ToolResult.err ("Error: " ++ k ++ " cannot unlock this door"), s)) := by
  constructor
  · unfold unlock_door
    cases heq : alookup l s.locations with
    | none => exact ⟨_, rfl⟩
    | some loc =>
        dsimp only
        by_cases h2 : (alookup d loc.door_states).isNone = true
        · rw [if_pos h2]
          exact ⟨_, rfl⟩
        · rw [if_neg h2]
          by_cases h3 : k ∉ s.player.inventory
          · rw [if_pos h3]
            exact ⟨_, rfl⟩
          · rw [if_neg h3]
            cases heq2 : alookup k s.items with
            | none => exact ⟨_, rfl⟩
            | some key_data =>
                dsimp only
                have h4 : (l ++ "_" ++ d) ∉ key_data.can_unlock := by
                  have h5 : canUnlockOf s k = key_data.can_unlock := by
                    simp [canUnlockOf, heq2]
                  rwa [h5] at h
                rw [if_pos h4]
                exact ⟨_, rfl⟩
  · intro loc hloc hdoor hinv hreg
    obtain ⟨key_data, heq2⟩ := Option.isSome_iff_exists.mp hreg
    have h4 : (l ++ "_" ++ d) ∉ key_data.can_unlock := by
      have h5 : canUnlockOf s k = key_data.can_unlock := by
        simp [canUnlockOf, heq2]
      rwa [h5] at h
    unfold unlock_door
    rw [hloc]
    dsimp only
    rw [if_neg (by simp [Option.isNone_eq_false_iff, Option.isSome_iff_ne_none.mp hdoor])]
    rw [if_neg (by simpa using hinv)]
    rw [heq2]
    dsimp only
    rw [if_pos h4]

/-- C6: inside `unlock_door`, once the location and door checks pass, the
key-not-held check runs before the key-registered check: a key that is
neither held nor registered produces the `"Player does not have"` error
(which is never the item-does-not-exist error — the two messages differ in
length); conversely the item-does-not-exist error is produced only when
the key is in the player's inventory yet not a registered item. -/
theorem c6_key_check_order (s : WorldState) (l d k : String) (loc : Location)
    (hloc : alookup l s.locations = some loc)
    (hdoor : (alookup d loc.door_states).isSome = true) :
    (k ∉ s.player.inventory →
       unlock_door s l d k = (ToolResult.err ("Error: Player does not have " ++ k), s) ∧
       ToolResult.err ("Error: Player does not have " ++ k)
         ≠ ToolResult.err ("Error: Item \x27" ++ k ++ "\x27 does not exist")) ∧
    ((unlock_door s l d k).1 = ToolResult.err ("Error: Item \x27" ++ k ++ "\x27 does not exist") →
       k ∈ s.player.inventory ∧ alookup k s.items = none) := by
  have hlen : ∀ m1 m2 : String, m1.length ≠ m2.length → ToolResult.err m1 ≠ ToolResult.err m2 := by
    intro m1 m2 hne heq
    cases heq
    exact hne rfl
  have hne1 : ToolResult.err ("Error: Player does not have " ++ k)
      ≠ ToolResult.err ("Error: Item \x27" ++ k ++ "\x27 does not exist") := by
    apply hlen
    simp only [String.length_append]
    have e1 : ("Error: Player does not have ").length = 28 := by decide
    have e2 : ("Error: Item \x27").length = 13 := by decide
    have e3 : ("\x27 does not exist").length = 16 := by decide
    omega
  constructor
  · intro hk
    refine ⟨?_, hne1⟩
    unfold unlock_door
    rw [hloc]
    dsimp only
    rw [if_neg (by simp [Option.isNone_eq_false_iff, Option.isSome_iff_ne_none.mp hdoor])]
    rw [if_pos hk]
  · intro hres
    by_cases hk : k ∉ s.player.inventory
    · exfalso
      have hu : unlock_door s l d k
          = (ToolResult.err ("Error: Player does not have " ++ k), s) := by
        unfold unlock_door
        rw [hloc]
        dsimp only
        rw [if_neg (by simp [Option.isNone_eq_false_iff, Option.isSome_iff_ne_none.mp hdoor])]
        rw [if_pos hk]
      rw [hu] at hres
      exact hne1 hres
    · rw [Decidable.not_not] at hk
      refine ⟨hk, ?_⟩
      cases heq2 : alookup k s.items with
      | none => rfl
      | some key_data =>
          exfalso
          have hne2 : ∀ m1, m1 = ("Error: " ++ k ++ " cannot unlock this door") →
              ToolResult.err m1
                ≠ ToolResult.err ("Error: Item \x27" ++ k ++ "\x27 does not exist") := by
            intro m1 hm1
            subst hm1
            apply hlen
            simp only [String.length_append]
            have e1 : ("Error: ").length = 7 := by decide
            have e2 : (" cannot unlock this door").length = 24 := by decide
            have e3 : ("Error: Item \x27").length = 13 := by decide
            have e4 : ("\x27 does not exist").length = 16 := by decide
            omega
          have hu : (unlock_door s l d k).1
                = ToolResult.err ("Error: " ++ k ++ " cannot unlock this door")
              ∨ ∃ m2, (unlock_door s l d k).1 = ToolResult.ok m2 := by
            unfold unlock_door
            rw [hloc]
            dsimp only
            rw [if_neg (by simp [Option.isNone_eq_false_iff, Option.isSome_iff_ne_none.mp hdoor])]
            rw [if_neg (by simpa using hk)]
            rw [heq2]
            dsimp only
            by_cases h4 : (l ++ "_" ++ d) ∉ key_data.can_unlock
            · rw [if_pos h4]
              exact Or.inl rfl
            · rw [if_neg h4]
              exact Or.inr ⟨_, rfl⟩
          rcases hu with hu | ⟨m2, hu⟩
          · rw [hu] at hres
            exact hne2 _ rfl hres
          · rw [hu] at hres
            exact ToolResult.noConfusion hres

theorem findLockedDoor_isSome (exits : List (String × String))
    (dss : List (String × DoorState)) (dest : String)
    (h : ∃ dir ds, (dir, dest) ∈ exits ∧ alookup dir dss = some ds ∧ ds.locked = some true) :
    (findLockedDoor exits dss dest).isSome = true := by
  induction exits with
  | nil => simp at h
  | cons p rest ih =>
      obtain ⟨dir0, tgt0⟩ := p
      obtain ⟨dir, ds, hmem, hlk, hlt⟩ := h
      by_cases ht : tgt0 = dest
      · by_cases hl : (((alookup dir0 dss).getD
            { locked := none, description := none }).locked.getD false) = true
        · unfold findLockedDoor
          rw [if_pos ht, if_pos hl]
          rfl
        · unfold findLockedDoor
          rw [if_pos ht, if_neg hl]
          rcases List.mem_cons.mp hmem with hmem | hmem
          · exfalso
            have hd : dir = dir0 := (Prod.mk.injEq .. ▸ hmem).1
            subst hd
            rw [hlk] at hl
            simp [hlt] at hl
          · exact ih ⟨dir, ds, hmem, hlk, hlt⟩
      · unfold findLockedDoor
        rw [if_neg ht]
        rcases List.mem_cons.mp hmem with hmem | hmem
        · exfalso
          exact ht (Prod.mk.injEq .. ▸ hmem).2.symm
        · exact ih ⟨dir, ds, hmem, hlk, hlt⟩

theorem findLockedDoor_spec (exits : List (String × String))
    (dss : List (String × DoorState)) (dest : String) (d : DoorState)
    (h : findLockedDoor exits dss dest = some d) :
    d.locked.getD false = true ∧
    ∃ dir, (dir, dest) ∈ exits ∧
      (alookup dir dss).getD { locked := none, description := none } = d := by
  induction exits with
  | nil => simp [findLockedDoor] at h
  | cons p rest ih =>
      obtain ⟨dir0, tgt0⟩ := p
      unfold findLockedDoor at h
      by_cases ht : tgt0 = dest
      · rw [if_pos ht] at h
        by_cases hl : (((alookup dir0 dss).getD
            { locked := none, description := none }).locked.getD false) = true
        · rw [if_pos hl] at h
          have hd : ((alookup dir0 dss).getD { locked := none, description := none }) = d :=
            Option.some.injEq .. ▸ h
          subst ht
          exact ⟨hd ▸ hl, dir0, List.mem_cons_self _ _, hd⟩
        · rw [if_neg hl] at h
          obtain ⟨hlk, dir, hmem, heq⟩ := ih h
          exact ⟨hlk, dir, List.mem_cons_of_mem _ hmem, heq⟩
      · rw [if_neg ht] at h
        obtain ⟨hlk, dir, hmem, heq⟩ := ih h
        exact ⟨hlk, dir, List.mem_cons_of_mem _ hmem, heq⟩

/-- C8: in `move_player` and `move_npc`, if any direction of the mover's
current location leads to the destination through a door whose state is
locked, the move fails with the door-locked error and the state is
unchanged; the message is built from the blocking door's description with
the word `"door"` as default, and the blocking door found is one of the
matching locked directions (so when several directions reach the same
destination, any locked one aborts the move). -/
theorem c8_locked_door_blocks (s : WorldState) (dest : String) :
    (∀ curLoc, alookup s.player.location s.locations = some curLoc →
       (alookup dest s.locations).isSome = true →
       (∃ dir ds, (dir, dest) ∈ curLoc.exits ∧
          alookup dir curLoc.door_states = some ds ∧ ds.locked = some true) →
       move_player s dest =
         (ToolResult.err ("Error: The "
            ++ ((findLockedDoor curLoc.exits curLoc.door_states dest).getD
                  { locked := none, description := none }).description.getD "door"
            ++ " is locked"), s) ∧
       ∃ d2, findLockedDoor curLoc.exits curLoc.door_states dest = some d2 ∧
         d2.locked.getD false = true ∧
         ∃ dir2, (dir2, dest) ∈ curLoc.exits ∧
           (alookup dir2 curLoc.door_states).getD { locked := none, description := none } = d2) ∧
    (∀ npcId npc curLoc, alookup npcId s.npcs = some npc →
       alookup npc.location s.locations = some curLoc →
       (alookup dest s.locations).isSome = true →
       (∃ dir ds, (dir, dest) ∈ curLoc.exits ∧
          alookup dir curLoc.door_states = some ds ∧ ds.locked = some true) →
       move_npc s npcId dest =
         (ToolResult.err ("Error: The "
            ++ ((findLockedDoor curLoc.exits curLoc.door_states dest).getD
                  { locked := none, description := none }).description.getD "door"
            ++ " is locked"), s) ∧
       ∃ d2, findLockedDoor curLoc.exits curLoc.door_states dest = some d2 ∧
         d2.locked.getD false = true ∧
         ∃ dir2, (dir2, dest) ∈ curLoc.exits ∧
           (alookup dir2 curLoc.door_states).getD { locked := none, description := none } = d2) := by
  constructor
  · intro curLoc hcur hreg hlock
    obtain ⟨d2, hfind⟩ := Option.isSome_iff_exists.mp
      (findLockedDoor_isSome curLoc.exits curLoc.door_states dest hlock)
    obtain ⟨dir, ds, hmem, hlk, hlt⟩ := hlock
    have hmm : dest ∈ curLoc.exits.map Prod.snd :=
      List.mem_map.mpr ⟨(dir, dest), hmem, rfl⟩
    constructor
    · unfold move_player
      rw [if_neg (by simp [Option.isNone_eq_false_iff, Option.isSome_iff_ne_none.mp hreg])]
      dsimp only
      rw [hcur]
      dsimp only
      rw [if_neg (not_not_intro hmm)]
      rw [hfind]
      simp [hfind]
    · obtain ⟨hlk2, dir2, hmem2, heq2⟩ :=
        findLockedDoor_spec curLoc.exits curLoc.door_states dest d2 hfind
      exact ⟨d2, hfind, hlk2, dir2, hmem2, heq2⟩
  · intro npcId npc curLoc hnpc hcur hreg hlock
    obtain ⟨d2, hfind⟩ := Option.isSome_iff_exists.mp
      (findLockedDoor_isSome curLoc.exits curLoc.door_states dest hlock)
    obtain ⟨dir, ds, hmem, hlk, hlt⟩ := hlock
    have hmm : dest ∈ curLoc.exits.map Prod.snd :=
      List.mem_map.mpr ⟨(dir, dest), hmem, rfl⟩
    constructor
    · unfold move_npc
      rw [hnpc]
      dsimp only
      rw [if_neg (by simp [Option.isNone_eq_false_iff, Option.isSome_iff_ne_none.mp hreg])]
      rw [hcur]
      dsimp only
      rw [if_neg (not_not_intro hmm)]
      rw [hfind]
      simp [hfind]
    · obtain ⟨hlk2, dir2, hmem2, heq2⟩ :=
        findLockedDoor_spec curLoc.exits curLoc.door_states dest d2 hfind
      exact ⟨d2, hfind, hlk2, dir2, hmem2, heq2⟩

theorem unlock_door_success_eval (s : WorldState) (l d k : String)
    (loc : Location) (dsOld : DoorState) (key_data : Item)
    (h1 : alookup l s.locations = some loc)
    (h2 : alookup d loc.door_states = some dsOld)
    (h3 : k ∈ s.player.inventory)
    (h4 : alookup k s.items = some key_data)
    (h5 : (l ++ "_" ++ d) ∈ key_data.can_unlock) :
    unlock_door s l d k =
      (ToolResult.ok ("Door to the " ++ d ++ " in " ++ l ++ " has been unlocked with " ++ k),
       unlockedState s l d loc dsOld) := by
  unfold unlock_door
  rw [h1]
  dsimp only
  rw [if_neg (by simp [h2])]
  rw [if_neg (by simpa using h3)]
  rw [h4]
  dsimp only
  rw [if_neg (not_not_intro h5)]
  rw [h2]
  rfl

/-- C10: `unlock_door` is idempotent on success: whenever a call succeeds,
repeating it with the same arguments on the resulting state succeeds again
with the same message, and leaves the state exactly as it was after the
first call (unlocking an already-unlocked door with a matching held key is
not an error). -/
theorem c10_unlock_idempotent (s : WorldState) (l d k m : String) (s1 : WorldState)
    (h : unlock_door s l d k = (ToolResult.ok m, s1)) :
    unlock_door s1 l d k = (ToolResult.ok m, s1) := by
  unfold unlock_door at h
  cases heq : alookup l s.locations with
  | none => rw [heq] at h; exact absurd h (by simp)
  | some loc =>
      rw [heq] at h
      dsimp only at h
      by_cases h2 : (alookup d loc.door_states).isNone = true
      · rw [if_pos h2] at h; exact absurd h (by simp)
      · rw [if_neg h2] at h
        by_cases h3 : k ∉ s.player.inventory
        · rw [if_pos h3] at h; exact absurd h (by simp)
        · rw [if_neg h3] at h
          cases heq2 : alookup k s.items with
          | none => rw [heq2] at h; exact absurd h (by simp)
          | some key_data =>
              rw [heq2] at h
              dsimp only at h
              by_cases h4 : (l ++ "_" ++ d) ∉ key_data.can_unlock
              · rw [if_pos h4] at h; exact absurd h (by simp)
              · rw [if_neg h4] at h
                obtain ⟨dsOld, heqd⟩ := Option.isSome_iff_exists.mp
                  (by simpa [Option.isNone_eq_false_iff, Option.isSome_iff_ne_none] using h2)
                rw [heqd] at h
                obtain ⟨hm, hs⟩ := Prod.mk.injEq .. ▸ h
                obtain hmsg := ToolResult.ok.injEq .. ▸ hm
                subst hs
                subst hmsg
                show unlock_door (unlockedState s l d loc dsOld) l d k =
                  (ToolResult.ok ("Door to the " ++ d ++ " in " ++ l
                     ++ " has been unlocked with " ++ k),
                   unlockedState s l d loc dsOld)
                have h1b : alookup l (unlockedState s l d loc dsOld).locations
                    = some (unlockedLoc d loc dsOld) := alookup_upsert_self l _ s.locations
                have h2b : alookup d (unlockedLoc d loc dsOld).door_states
                    = some (unlockedDoor dsOld) := alookup_upsert_self d _ loc.door_states
                have h3b : k ∈ (unlockedState s l d loc dsOld).player.inventory :=
                  Decidable.not_not.mp h3
                have h4b : alookup k (unlockedState s l d loc dsOld).items = some key_data :=
                  heq2
                have e1 := unlock_door_success_eval (unlockedState s l d loc dsOld) l d k
                  (unlockedLoc d loc dsOld) (unlockedDoor dsOld) key_data
                  h1b h2b h3b h4b (Decidable.not_not.mp h4)
                rw [e1]
                have el : unlockedLoc d (unlockedLoc d loc dsOld) (unlockedDoor dsOld)
                    = unlockedLoc d loc dsOld := by
                  unfold unlockedLoc unlockedDoor
                  dsimp only
                  rw [upsert_upsert_self]
                have es : unlockedState (unlockedState s l d loc dsOld) l d
                      (unlockedLoc d loc dsOld) (unlockedDoor dsOld)
                    = unlockedState s l d loc dsOld := by
                  unfold unlockedState
                  dsimp only
                  rw [el, upsert_upsert_self]
                rw [es]

/-- C5 counterexample: for the held, registered key `"k1"` and the door id
`"zzz_n"` absent from its `can_unlock`, the call fails with the
location-does-not-exist error — not the key-cannot-unlock error the claim
requires for every location id — because the location check runs first. -/
theorem c5_counterexample :
    ("zzz" ++ "_" ++ "n") ∉ canUnlockOf W1 "k1" ∧
    unlock_door W1 "zzz" "n" "k1"
      = (ToolResult.err "Error: Location \x27zzz\x27 does not exist", W1) ∧
    ToolResult.err "Error: Location \x27zzz\x27 does not exist"
      ≠ ToolResult.err ("Error: " ++ "k1" ++ " cannot unlock this door") :=
  ⟨by decide, by decide, by decide⟩

theorem c1_witness :
    transfer_item W2 "silver_key" "foyer" "nonexistent_room" =
      (ToolResult.err "Error: Location \x27nonexistent_room\x27 does not exist", W2) ∧
    alookup "foyer" (transfer_item W2 "silver_key" "foyer" "nonexistent_room").2.locations
      = some foyerW2 ∧
    "silver_key" ∈ foyerW2.items :=
  c1_transfer_dest_not_found W2 foyerW2 (by decide) (by decide) (by decide)
    (by decide) (by decide) (by decide)

theorem c2_witness :
    move_player W1 "c" =
      (ToolResult.err ("Error: Cannot move directly from "
         ++ W1.player.location ++ " to " ++ "c"), W1) :=
  (c2_move_unreachable_fails W1 "c" locA (by decide) (by decide)).1 (by decide)

theorem c3_witness :
    Exclusive W1 ∧ Exclusive (transfer_item W1 "gem" "a" "player").2 :=
  ⟨by decide, (c3_item_exclusivity W1 (by decide)).2.2.1 "gem" "a" "player"⟩

theorem c4_witness :
    Buffers4 (apply_memory_calls W1 [("z", "t5", "a1")]) :=
  (c4_ring_buffers W1 (by decide)).1 [("z", "t5", "a1")]

theorem c5_witness :
    unlock_door W1 "a" "e" "k1"
      = (ToolResult.err ("Error: " ++ "k1" ++ " cannot unlock this door"), W1) :=
  (c5_key_mismatch_never_unlocks W1 "a" "e" "k1" (by decide)).2 locA
    (by decide) (by decide) (by decide) (by decide)

theorem c6_witness :
    unlock_door W1 "a" "n" "nokey"
        = (ToolResult.err ("Error: Player does not have " ++ "nokey"), W1) ∧
      ToolResult.err ("Error: Player does not have " ++ "nokey")
        ≠ ToolResult.err ("Error: Item \x27" ++ "nokey" ++ "\x27 does not exist") :=
  (c6_key_check_order W1 "a" "n" "nokey" locA (by decide) (by decide)).1 (by decide)

theorem c7_witness :
    (mark_npc_as_met (mark_npc_as_met W1 "z").2 "z").2 = (mark_npc_as_met W1 "z").2 ∧
    (mark_npc_as_met (mark_npc_as_met W1 "z").2 "z").1
      = ToolResult.ok ("Player has already met " ++ "z") :=
  c7_mark_idempotent W1 "z" (by decide)

theorem c8_witness :
    move_player W1 "b" = (ToolResult.err "Error: The door is locked", W1) := by
  have h := ((c8_locked_door_blocks W1 "b").1 locA (by decide) (by decide)
    ⟨"n", { locked := some true, description := none }, by decide, by decide, rfl⟩).1
  rw [h]
  decide

theorem c9_witness :
    load_world_state Medium.absent = DEFAULT_WORLD_STATE ∧
    load_world_state (Medium.corrupt "bad json") = DEFAULT_WORLD_STATE ∧
    load_world_state (Medium.corrupt "bad json") = load_world_state Medium.absent ∧
    load_world_state (Medium.present W1) = W1 :=
  c9_load_fail_soft "bad json" W1

theorem c10_witness :
    unlock_door W1u "a" "n" "k1"
      = (ToolResult.ok ("Door to the " ++ "n" ++ " in " ++ "a"
          ++ " has been unlocked with " ++ "k1"), W1u) :=
  c10_unlock_idempotent W1 "a" "n" "k1"
    ("Door to the " ++ "n" ++ " in " ++ "a" ++ " has been unlocked with " ++ "k1")
    W1u (by decide)

end TAdv
